import Mathlib

/-!
Shallow embedding of the two example HTTP servers of the repository
(`examples/c-app/server.c` and `examples/c-app/server.cpp`).

Both servers share the same shape: `main` creates, binds and listens on a
TCP socket (exiting with code 1 on any of those three failures), then loops
forever accepting connections; each accepted connection is passed to
`handle_request`, which performs one bounded `read`, classifies the bytes by
a literal substring search for `GET /health`, and writes one of two canned
responses.

Modelling decisions, all taken from the source:
  * Bytes are `Nat` (the values an unsigned `char` can take); byte strings
    are `List Nat`.
  * The result of the `read(2)` call is `ReadResult`: either an error
    (negative return) or the list of bytes actually read.  The `read` call
    passes `BUFFER_SIZE - 1 = 4095` as the count, so the data list of a
    faithful read is `payload.take 4095` of whatever the peer sent
    (`readRequest` below).
  * `buffer[bytes_read] = '\0'` plus `strstr(buffer, ...)` in C, and
    `std::string request(buffer)` in C++, both mean the searched text is the
    longest NUL-free prefix of the received bytes (`requestOfBuffer`).
  * `strstr(h, n) != NULL` and `request.find(n) != std::string::npos` are
    both contiguous-substring search, embedded as `containsSub`.
  * The C server builds its response with `snprintf(response, 4096, ...)`
    (truncation to 4095 bytes) and writes `strlen(response)` bytes
    (truncation at the first NUL); both truncations are kept in the model
    (`snprintfFormat`, `cWrite`).  The C++ server builds a `std::string`
    and writes all of its bytes, with no truncation.
  * The timestamp written by `strftime(.., "%Y-%m-%dT%H:%M:%SZ", gmtime(..))`
    in C and by `std::put_time(.., "%Y-%m-%dT%H:%M:%SZ")` in C++ is embedded
    as a formatting function of the broken-down-time fields (`tm_year` is
    years since 1900, `tm_mon` is 0-based, as in `struct tm`): `%Y` prints
    the year unpadded, the other fields are zero-padded to two digits.
    The handlers themselves take the produced timestamp bytes as a
    parameter, which is the seam between the clock and the pure code.
-/

namespace AgentKernel

/-- The bytes of a string literal (all literals used are ASCII). -/
def strBytes (s : String) : List Nat := s.data.map Char.toNat

/-- The literal `"GET /health"` searched for by both servers. -/
def healthNeedle : List Nat := strBytes "GET /health"

/-- Does `hay` start with `needle`?  (The one-position comparison both
`strstr` and `std::string::find` perform at each candidate offset.) -/
def startsWithB : List Nat → List Nat → Bool
  | [], _ => true
  | _ :: _, [] => false
  | a :: as, b :: bs => (a == b) && startsWithB as bs

/-- Contiguous-substring search: the embedding of `strstr(hay, needle) != NULL`
(server.c line 32) and of `request.find(needle) != std::string::npos`
(server.cpp line 41). -/
def containsSub (needle : List Nat) : List Nat → Bool
  | [] => startsWithB needle []
  | b :: rest => startsWithB needle (b :: rest) || containsSub needle rest

/-- The spec-side notion of "the byte sequence contains the literal substring
`needle` anywhere": some decomposition `pre ++ needle ++ suf`. -/
def hasSubstring (needle hay : List Nat) : Prop :=
  ∃ pre suf, pre ++ needle ++ suf = hay

/-- `BUFFER_SIZE` of both servers. -/
def bufferSize : Nat := 4096

/-- The bytes `read(client_socket, buffer, BUFFER_SIZE - 1)` places in the
buffer when the peer has `payload` available: at most 4095 of them. -/
def readRequest (payload : List Nat) : List Nat := payload.take (bufferSize - 1)

/-- The index at which `buffer[bytes_read] = '\0'` writes the terminator. -/
def terminatorIndex (payload : List Nat) : Nat := (readRequest payload).length

/-- Outcome of the `read` call as seen by `handle_request`: a negative
return, or the bytes read. -/
inductive ReadResult where
  | readError : ReadResult
  | ok (data : List Nat) : ReadResult
deriving DecidableEq

/-- After `buffer[bytes_read] = '\0'`, the C string in `buffer` (and the
`std::string request(buffer)` of the C++ server): the longest prefix of the
received bytes containing no NUL byte. -/
def requestOfBuffer (data : List Nat) : List Nat :=
  data.takeWhile (fun b => !(b == 0))

/-- server.c line 32: `strstr(buffer, "GET /health") != NULL`. -/
def classifyC (data : List Nat) : Bool :=
  containsSub healthNeedle (requestOfBuffer data)

/-- server.cpp line 41: `request.find("GET /health") != std::string::npos`. -/
def classifyCpp (data : List Nat) : Bool :=
  containsSub healthNeedle (requestOfBuffer data)

/-- Everything of the health response before the timestamp value. -/
def healthPrefixBytes : List Nat :=
  strBytes "HTTP/1.1 200 OK\r\nContent-Type: application/json\r\n\r\n\x7b\"status\": \"ok\", \"timestamp\": \""

/-- Everything of the health response after the timestamp value. -/
def healthSuffixBytes : List Nat := strBytes "\"\x7d\n"

/-- The complete default-route response of both servers. -/
def defaultResponseBytes : List Nat :=
  strBytes "HTTP/1.1 200 OK\r\nContent-Type: text/plain\r\n\r\nHello from agentkernel sandbox!\n"

/-- `snprintf(response, sizeof(response), ...)` keeps at most
`BUFFER_SIZE - 1 = 4095` bytes of the formatted output. -/
def snprintfFormat (formatted : List Nat) : List Nat := formatted.take (bufferSize - 1)

/-- `write(client_socket, response, strlen(response))`: the bytes sent are
the response up to its first NUL byte. -/
def cWrite (response : List Nat) : List Nat :=
  response.takeWhile (fun b => !(b == 0))

/-- What one call of `handle_request` did:  the bytes written to the
connection (`none` when it returned before writing), and whether it reported
a read failure (`perror("read")` in C, the `std::cerr` line in C++). -/
structure HandlerResult where
  wrote : Option (List Nat)
  reportedReadError : Bool
deriving DecidableEq

/-- `handle_request` of server.c (lines 19-52), given the outcome of its
`read` call and the timestamp bytes its `strftime` call produced. -/
def handle_request_c (r : ReadResult) (ts : List Nat) : HandlerResult :=
  match r with
  | ReadResult.readError => ⟨none, true⟩
  | ReadResult.ok data =>
      if classifyC data then
        ⟨some (cWrite (snprintfFormat (healthPrefixBytes ++ ts ++ healthSuffixBytes))), false⟩
      else
        ⟨some (cWrite (snprintfFormat defaultResponseBytes)), false⟩

/-- `handle_request` of server.cpp (lines 29-54), given the outcome of its
`read` call and the timestamp bytes `get_timestamp()` produced. -/
def handle_request_cpp (r : ReadResult) (ts : List Nat) : HandlerResult :=
  match r with
  | ReadResult.readError => ⟨none, true⟩
  | ReadResult.ok data =>
      if classifyCpp data then
        ⟨some (healthPrefixBytes ++ ts ++ healthSuffixBytes), false⟩
      else
        ⟨some defaultResponseBytes, false⟩

/-- One iteration of the `while (1)` accept loop: either `accept` failed, or
a connection arrived whose `read` gave `r` while the clock gave `ts`. -/
inductive AcceptEvent where
  | acceptFail : AcceptEvent
  | conn (r : ReadResult) (ts : List Nat) : AcceptEvent

/-- What one iteration of the accept loop did. -/
structure LoopStep where
  response : Option (List Nat)
  closedClient : Bool
  reportedAcceptError : Bool
  continues : Bool
deriving DecidableEq

/-- The body of the accept loop of server.c (lines 90-99): a failed accept is
reported and the loop continues; otherwise the connection is handled and
closed, and the loop continues.  No branch leaves the loop. -/
def loopBodyC : AcceptEvent → LoopStep
  | AcceptEvent.acceptFail => ⟨none, false, true, true⟩
  | AcceptEvent.conn r ts => ⟨(handle_request_c r ts).wrote, true, false, true⟩

/-- The body of the accept loop of server.cpp (lines 83-95). -/
def loopBodyCpp : AcceptEvent → LoopStep
  | AcceptEvent.acceptFail => ⟨none, false, true, true⟩
  | AcceptEvent.conn r ts => ⟨(handle_request_cpp r ts).wrote, true, false, true⟩

/-- The responses the C server sends over a sequence of loop iterations.
The loop body touches no state outside the iteration, so the trace is a map. -/
def serverTraceC (events : List AcceptEvent) : List (Option (List Nat)) :=
  events.map (fun e => (loopBodyC e).response)

/-- The responses the C++ server sends over a sequence of loop iterations. -/
def serverTraceCpp (events : List AcceptEvent) : List (Option (List Nat)) :=
  events.map (fun e => (loopBodyCpp e).response)

/-- How `main` ends before reaching the accept loop, or that it reached it. -/
inductive MainResult where
  | earlyExit (code : Nat) (diag : String) : MainResult
  | listening : MainResult
deriving DecidableEq

/-- Startup of server.c (lines 60-88): `socket`, `bind`, `listen` in order,
each failure exiting with code 1 after a `perror` diagnostic. -/
def serverStartupC (socketOk bindOk listenOk : Bool) : MainResult :=
  if !socketOk then MainResult.earlyExit 1 "socket"
  else if !bindOk then MainResult.earlyExit 1 "bind"
  else if !listenOk then MainResult.earlyExit 1 "listen"
  else MainResult.listening

/-- Startup of server.cpp (lines 57-79). -/
def serverStartupCpp (socketOk bindOk listenOk : Bool) : MainResult :=
  if !socketOk then MainResult.earlyExit 1 "Failed to create socket"
  else if !bindOk then MainResult.earlyExit 1 "Bind failed"
  else if !listenOk then MainResult.earlyExit 1 "Listen failed"
  else MainResult.listening

/-- The decimal digits (as ASCII bytes) of `n`, no padding: the `%Y`
conversion of `strftime`/`std::put_time`. -/
def natDigits (n : Nat) : List Nat :=
  if n < 10 then [48 + n] else natDigits (n / 10) ++ [48 + n % 10]
decreasing_by exact Nat.div_lt_self (by omega) (by omega)

/-- A numeric `strftime` field zero-padded to width 2 (`%m %d %H %M %S`);
values of three or more digits print unpadded. -/
def pad2 (n : Nat) : List Nat :=
  if n < 10 then [48, 48 + n] else natDigits n

/-- `strftime(buf, 64, "%Y-%m-%dT%H:%M:%SZ", tm)` on a broken-down time
(`tm_year` years since 1900, `tm_mon` 0-based), as in server.c line 34. -/
def strftimeTimestamp (tm_year tm_mon tm_mday tm_hour tm_min tm_sec : Nat) : List Nat :=
  natDigits (1900 + tm_year) ++ [45] ++ pad2 (tm_mon + 1) ++ [45] ++ pad2 tm_mday
    ++ [84] ++ pad2 tm_hour ++ [58] ++ pad2 tm_min ++ [58] ++ pad2 tm_sec ++ [90]

/-- `get_timestamp()` of server.cpp: `std::put_time` with the same format
string, hence the same function of the broken-down time. -/
def putTimeTimestamp (tm_year tm_mon tm_mday tm_hour tm_min tm_sec : Nat) : List Nat :=
  natDigits (1900 + tm_year) ++ [45] ++ pad2 (tm_mon + 1) ++ [45] ++ pad2 tm_mday
    ++ [84] ++ pad2 tm_hour ++ [58] ++ pad2 tm_min ++ [58] ++ pad2 tm_sec ++ [90]

/-- Is `b` an ASCII decimal digit? -/
def isDig (b : Nat) : Bool := decide (48 ≤ b) && decide (b ≤ 57)

/-- Does `l` match the pattern `YYYY-MM-DDTHH:MM:SSZ` byte for byte
(45 `-`, 84 `T`, 58 `:`, 90 `Z`)? -/
def matchesTimestampPattern (l : List Nat) : Bool :=
  match l with
  | [y1, y2, y3, y4, s1, mo1, mo2, s2, d1, d2, t1, h1, h2, c1, mi1, mi2, c2, se1, se2, z1] =>
      isDig y1 && isDig y2 && isDig y3 && isDig y4 && (s1 == 45) &&
      isDig mo1 && isDig mo2 && (s2 == 45) && isDig d1 && isDig d2 &&
      (t1 == 84) && isDig h1 && isDig h2 && (c1 == 58) && isDig mi1 &&
      isDig mi2 && (c2 == 58) && isDig se1 && isDig se2 && (z1 == 90)
  | _ => false

/-! ### Substring-search infrastructure -/

/-- `startsWithB n h` succeeds exactly when `h` extends `n`. -/
theorem startsWithB_iff (n h : List Nat) :
    startsWithB n h = true ↔ ∃ suf, n ++ suf = h := by
  induction n generalizing h with
  | nil =>
      simp [startsWithB]
  | cons a as ih =>
      cases h with
      | nil =>
          simp [startsWithB]
      | cons b bs =>
          simp only [startsWithB, Bool.and_eq_true, beq_iff_eq, ih]
          constructor
          · rintro ⟨rfl, suf, rfl⟩
            exact ⟨suf, rfl⟩
          · rintro ⟨suf, hEq⟩
            injection hEq with h1 h2
            exact ⟨h1, suf, h2⟩

/-- `containsSub` decides `hasSubstring`. -/
theorem containsSub_iff (n h : List Nat) :
    containsSub n h = true ↔ hasSubstring n h := by
  induction h with
  | nil =>
      simp only [containsSub, startsWithB_iff, hasSubstring]
      constructor
      · rintro ⟨suf, hEq⟩
        exact ⟨[], suf, hEq⟩
      · rintro ⟨pre, suf, hEq⟩
        rcases List.append_eq_nil.mp hEq with ⟨h1, h2⟩
        rcases List.append_eq_nil.mp h1 with ⟨rfl, rfl⟩
        exact ⟨[], rfl⟩
  | cons b rest ih =>
      simp only [containsSub, Bool.or_eq_true, startsWithB_iff, ih, hasSubstring]
      constructor
      · rintro (⟨suf, hEq⟩ | ⟨pre, suf, hEq⟩)
        · exact ⟨[], suf, hEq⟩
        · exact ⟨b :: pre, suf, by simp [← hEq]⟩
      · rintro ⟨pre, suf, hEq⟩
        cases pre with
        | nil => exact Or.inl ⟨suf, by simpa using hEq⟩
        | cons p ps =>
            injection hEq with h1 h2
            exact Or.inr ⟨ps, suf, h2⟩

/-- A substring of a `takeWhile` prefix is a substring of the whole list. -/
theorem hasSubstring_of_takeWhile (n l : List Nat) (p : Nat → Bool)
    (h : hasSubstring n (l.takeWhile p)) : hasSubstring n l := by
  rcases h with ⟨pre, suf, hEq⟩
  refine ⟨pre, suf ++ l.dropWhile p, ?_⟩
  calc pre ++ n ++ (suf ++ l.dropWhile p)
      = (pre ++ n ++ suf) ++ l.dropWhile p := by simp
    _ = l.takeWhile p ++ l.dropWhile p := by rw [hEq]
    _ = l := List.takeWhile_append_dropWhile p l

/-- `cWrite` is the identity on NUL-free byte strings. -/
theorem cWrite_eq_self (l : List Nat) (h : ∀ b ∈ l, b ≠ 0) : cWrite l = l := by
  induction l with
  | nil => rfl
  | cons a as ih =>
      have ha : a ≠ 0 := h a (by simp)
      simp only [cWrite, List.takeWhile_cons]
      rw [if_pos (by simpa using ha)]
      have := ih (fun b hb => h b (by simp [hb]))
      simpa [cWrite] using this

/-- `snprintfFormat` is the identity on outputs shorter than the buffer. -/
theorem snprintfFormat_eq_self (l : List Nat) (h : l.length ≤ 4095) :
    snprintfFormat l = l := by
  simp only [snprintfFormat, bufferSize]
  exact List.take_of_length_le h

/-! ### Timestamp formatting -/

/-- One digit for values below ten. -/
theorem natDigits_lt10 (n : Nat) (h : n < 10) : natDigits n = [48 + n] := by
  rw [natDigits, if_pos h]

/-- The recursive step for values of ten or more. -/
theorem natDigits_ge10 (n : Nat) (h : 10 ≤ n) :
    natDigits n = natDigits (n / 10) ++ [48 + n % 10] := by
  rw [natDigits, if_neg (by omega)]

/-- Adding 48 to a value below ten gives an ASCII digit. -/
theorem isDig_of_le9 (k : Nat) (h : k ≤ 9) : isDig (48 + k) = true := by
  simp only [isDig, Bool.and_eq_true, decide_eq_true_eq]
  omega

/-- A four-digit value prints as exactly four digit bytes. -/
theorem natDigits_four (n : Nat) (h1 : 1000 ≤ n) (h2 : n ≤ 9999) :
    natDigits n =
      [48 + n / 10 / 10 / 10, 48 + n / 10 / 10 % 10, 48 + n / 10 % 10, 48 + n % 10] := by
  rw [natDigits_ge10 n (by omega), natDigits_ge10 (n / 10) (by omega),
    natDigits_ge10 (n / 10 / 10) (by omega), natDigits_lt10 (n / 10 / 10 / 10) (by omega)]
  simp

/-- A `strftime` field of at most two digits prints as exactly two digit
bytes under `%02`-style padding. -/
theorem pad2_digits (n : Nat) (h : n ≤ 99) :
    ∃ a b, pad2 n = [a, b] ∧ isDig a = true ∧ isDig b = true := by
  by_cases hlt : n < 10
  · refine ⟨48, 48 + n, ?_, ?_, isDig_of_le9 n (by omega)⟩
    · rw [pad2, if_pos hlt]
    · simpa using isDig_of_le9 0 (by omega)
  · refine ⟨48 + n / 10, 48 + n % 10, ?_, isDig_of_le9 _ (by omega), isDig_of_le9 _ (by omega)⟩
    rw [pad2, if_neg hlt, natDigits_ge10 n (by omega), natDigits_lt10 (n / 10) (by omega)]
    simp

/-- With broken-down-time fields in the ranges `gmtime` guarantees (and a
year below 10000, i.e. `tm_year ≤ 8099`), the formatted timestamp matches
`YYYY-MM-DDTHH:MM:SSZ`. -/
theorem strftimeTimestamp_matches (tm_year tm_mon tm_mday tm_hour tm_min tm_sec : Nat)
    (hy : tm_year ≤ 8099) (hmo : tm_mon ≤ 11) (hd : tm_mday ≤ 31)
    (hh : tm_hour ≤ 23) (hmi : tm_min ≤ 59) (hs : tm_sec ≤ 60) :
    matchesTimestampPattern
      (strftimeTimestamp tm_year tm_mon tm_mday tm_hour tm_min tm_sec) = true := by
  obtain ⟨m1, m2, hmEq, hm1, hm2⟩ := pad2_digits (tm_mon + 1) (by omega)
  obtain ⟨d1, d2, hdEq, hd1, hd2⟩ := pad2_digits tm_mday (by omega)
  obtain ⟨h1, h2, hhEq, hh1, hh2⟩ := pad2_digits tm_hour (by omega)
  obtain ⟨i1, i2, hiEq, hi1, hi2⟩ := pad2_digits tm_min (by omega)
  obtain ⟨s1, s2, hsEq, hs1, hs2⟩ := pad2_digits tm_sec (by omega)
  rw [strftimeTimestamp, natDigits_four (1900 + tm_year) (by omega) (by omega),
    hmEq, hdEq, hhEq, hiEq, hsEq]
  simp only [List.cons_append, List.nil_append, matchesTimestampPattern]
  simp [hm1, hm2, hd1, hd2, hh1, hh2, hi1, hi2, hs1, hs2,
    isDig_of_le9 _ (show (1900 + tm_year) / 10 / 10 / 10 ≤ 9 by omega),
    isDig_of_le9 _ (show (1900 + tm_year) / 10 / 10 % 10 ≤ 9 by omega),
    isDig_of_le9 _ (show (1900 + tm_year) / 10 % 10 ≤ 9 by omega),
    isDig_of_le9 _ (show (1900 + tm_year) % 10 ≤ 9 by omega)]

/-- Anything matching the timestamp pattern has exactly 20 bytes, none of
them NUL. -/
theorem matchesTimestampPattern_length_nonzero (l : List Nat)
    (h : matchesTimestampPattern l = true) : l.length = 20 ∧ ∀ b ∈ l, b ≠ 0 := by
  unfold matchesTimestampPattern at h
  split at h
  · next y1 y2 y3 y4 s1 mo1 mo2 s2 d1 d2 t1 h1 h2 c1 mi1 mi2 c2 se1 se2 z1 =>
      simp only [Bool.and_eq_true, beq_iff_eq, isDig, decide_eq_true_eq] at h
      obtain ⟨⟨⟨⟨⟨⟨⟨⟨⟨⟨⟨⟨⟨⟨⟨⟨⟨⟨⟨hy1, hy2⟩, hy3⟩, hy4⟩, hs1⟩, hmo1⟩, hmo2⟩, hs2⟩,
        hd1⟩, hd2⟩, ht1⟩, hh1⟩, hh2⟩, hc1⟩, hmi1⟩, hmi2⟩, hc2⟩, hse1⟩, hse2⟩, hz1⟩ := h
      refine ⟨by simp, ?_⟩
      intro b hb
      simp only [List.mem_cons, List.not_mem_nil, or_false] at hb
      rcases hb with rfl | rfl | rfl | rfl | rfl | rfl | rfl | rfl | rfl | rfl |
        rfl | rfl | rfl | rfl | rfl | rfl | rfl | rfl | rfl | rfl <;> omega
  · exact absurd h (by simp)

/-! ### Handler evaluation lemmas -/

/-- The two classifiers are the same function of the received bytes. -/
theorem classifyCpp_eq (data : List Nat) : classifyCpp data = classifyC data := rfl

/-- The default response passes through `snprintf` untruncated. -/
theorem snprintfDefault_eq : snprintfFormat defaultResponseBytes = defaultResponseBytes :=
  snprintfFormat_eq_self _ (by decide)

/-- The default response has no NUL byte, so `strlen` sees all of it. -/
theorem cWriteDefault_eq : cWrite defaultResponseBytes = defaultResponseBytes :=
  cWrite_eq_self _ (by decide)

/-- The C handler on a default-classified request. -/
theorem handle_request_c_default (data ts : List Nat) (h : classifyC data = false) :
    handle_request_c (ReadResult.ok data) ts = ⟨some defaultResponseBytes, false⟩ := by
  simp [handle_request_c, h, snprintfDefault_eq, cWriteDefault_eq]

/-- The C++ handler on a default-classified request. -/
theorem handle_request_cpp_default (data ts : List Nat) (h : classifyCpp data = false) :
    handle_request_cpp (ReadResult.ok data) ts = ⟨some defaultResponseBytes, false⟩ := by
  simp [handle_request_cpp, h]

/-- The C handler on a health-classified request: for timestamps that fit
`strftime`'s 64-byte buffer and contain no NUL, neither the `snprintf`
truncation nor the `strlen` cut changes the response. -/
theorem handle_request_c_health (data ts : List Nat) (h : classifyC data = true)
    (hlen : ts.length ≤ 63) (hnz : ∀ b ∈ ts, b ≠ 0) :
    handle_request_c (ReadResult.ok data) ts =
      ⟨some (healthPrefixBytes ++ ts ++ healthSuffixBytes), false⟩ := by
  have hfull : ∀ b ∈ healthPrefixBytes ++ ts ++ healthSuffixBytes, b ≠ 0 := by
    intro b hb
    rcases List.mem_append.mp hb with hb1 | hb2
    · rcases List.mem_append.mp hb1 with hp | ht
      · exact (by decide : ∀ b ∈ healthPrefixBytes, b ≠ 0) b hp
      · exact hnz b ht
    · exact (by decide : ∀ b ∈ healthSuffixBytes, b ≠ 0) b hb2
  have hlen2 : (healthPrefixBytes ++ ts ++ healthSuffixBytes).length ≤ 4095 := by
    have hp : healthPrefixBytes.length = 82 := by decide
    have hq : healthSuffixBytes.length = 3 := by decide
    simp only [List.length_append, hp, hq]
    omega
  have hresp : cWrite (snprintfFormat (healthPrefixBytes ++ ts ++ healthSuffixBytes)) =
      healthPrefixBytes ++ ts ++ healthSuffixBytes := by
    rw [snprintfFormat_eq_self _ hlen2, cWrite_eq_self _ hfull]
  rw [List.append_assoc] at hresp
  simp [handle_request_c, h, hresp]

/-- The C++ handler on a health-classified request. -/
theorem handle_request_cpp_health (data ts : List Nat) (h : classifyCpp data = true) :
    handle_request_cpp (ReadResult.ok data) ts =
      ⟨some (healthPrefixBytes ++ ts ++ healthSuffixBytes), false⟩ := by
  simp [handle_request_cpp, h]

/-- Constructor facts about `MainResult.earlyExit` used for the startup claim. -/
theorem earlyExit_cases (c : Nat) (d : String) (hd : d ≠ "") :
    ∀ code diag, MainResult.earlyExit c d ≠ MainResult.earlyExit code diag ∨
      (code = c ∧ diag ≠ "") := by
  intro code diag
  by_cases h : code = c ∧ diag = d
  · exact Or.inr ⟨h.1, h.2 ▸ hd⟩
  · refine Or.inl fun hEq => ?_
    injection hEq with hc2 hd2
    exact h ⟨hc2.symm, hd2.symm⟩

/-! ### Claims -/

/-- C1, counterexample: the payload consisting of a NUL byte followed by
`GET /health` contains the literal substring `GET /health`, yet both
handlers classify it as the default route — `strstr` and
`std::string(buffer)` only see the bytes before the first NUL, so the
claimed "if and only if the sequence contains the substring anywhere in the
payload" fails. -/
theorem c1_substring_counterexample :
    hasSubstring healthNeedle (0 :: healthNeedle) ∧
    classifyC (0 :: healthNeedle) = false ∧
    classifyCpp (0 :: healthNeedle) = false :=
  ⟨⟨[0], [], by simp⟩, by decide, by decide⟩

/-- C1, amended: both handlers classify the request as a health check if and
only if the longest NUL-free prefix of the received bytes contains the
literal substring `GET /health`; every other sequence is the default
route. -/
theorem c1_substring_classification (data : List Nat) :
    (classifyC data = true ↔ hasSubstring healthNeedle (requestOfBuffer data)) ∧
    classifyCpp data = classifyC data :=
  ⟨containsSub_iff _ _, rfl⟩

/-- C2, counterexample: a zero-byte read is not treated as an error — the
handler classifies the empty request as the default route and writes the
default response, rather than returning without writing. -/
theorem c2_zero_read_counterexample :
    (handle_request_c (ReadResult.ok []) (strBytes "2024-01-01T00:00:00Z")).wrote ≠ none ∧
    (handle_request_cpp (ReadResult.ok []) (strBytes "2024-01-01T00:00:00Z")).wrote ≠ none :=
  ⟨by decide, by decide⟩

/-- C2, amended: on a zero-byte read both handlers do not crash and do not
return early: they classify the empty request as the default route and write
the default response; only a failed read (negative return) returns without
writing. -/
theorem c2_zero_read_behaviour (ts : List Nat) :
    handle_request_c (ReadResult.ok []) ts = ⟨some defaultResponseBytes, false⟩ ∧
    handle_request_cpp (ReadResult.ok []) ts = ⟨some defaultResponseBytes, false⟩ ∧
    handle_request_c ReadResult.readError ts = ⟨none, true⟩ ∧
    handle_request_cpp ReadResult.readError ts = ⟨none, true⟩ :=
  ⟨handle_request_c_default [] ts (by decide),
   handle_request_cpp_default [] ts (by decide), rfl, rfl⟩

/-- C3: every health-classified request is answered with status line
`HTTP/1.1 200 OK`, header `Content-Type: application/json`, and body
`{"status": "ok", "timestamp": "<ts>"}` plus a trailing newline
(`healthPrefixBytes`/`healthSuffixBytes` spell out exactly those bytes),
where `<ts>` matches `YYYY-MM-DDTHH:MM:SSZ`, for any broken-down UTC time
in the ranges `gmtime` guarantees with a year below 10000. -/
theorem c3_health_response (data : List Nat)
    (tm_year tm_mon tm_mday tm_hour tm_min tm_sec : Nat)
    (hc : classifyC data = true)
    (hy : tm_year ≤ 8099) (hmo : tm_mon ≤ 11) (hd : tm_mday ≤ 31)
    (hh : tm_hour ≤ 23) (hmi : tm_min ≤ 59) (hs : tm_sec ≤ 60) :
    (handle_request_c (ReadResult.ok data)
        (strftimeTimestamp tm_year tm_mon tm_mday tm_hour tm_min tm_sec)).wrote =
      some (healthPrefixBytes
        ++ strftimeTimestamp tm_year tm_mon tm_mday tm_hour tm_min tm_sec
        ++ healthSuffixBytes) ∧
    (handle_request_cpp (ReadResult.ok data)
        (putTimeTimestamp tm_year tm_mon tm_mday tm_hour tm_min tm_sec)).wrote =
      some (healthPrefixBytes
        ++ putTimeTimestamp tm_year tm_mon tm_mday tm_hour tm_min tm_sec
        ++ healthSuffixBytes) ∧
    matchesTimestampPattern
      (strftimeTimestamp tm_year tm_mon tm_mday tm_hour tm_min tm_sec) = true ∧
    matchesTimestampPattern
      (putTimeTimestamp tm_year tm_mon tm_mday tm_hour tm_min tm_sec) = true := by
  have hm := strftimeTimestamp_matches tm_year tm_mon tm_mday tm_hour tm_min tm_sec
    hy hmo hd hh hmi hs
  obtain ⟨hlen, hnz⟩ := matchesTimestampPattern_length_nonzero _ hm
  refine ⟨?_, ?_, hm, hm⟩
  · rw [handle_request_c_health data _ hc (by omega) hnz]
  · rw [handle_request_cpp_health data _ hc]

/-- C3 witness at a concrete request and clock value. -/
theorem c3_health_response_witness :
    classifyC (strBytes "GET /health HTTP/1.1\r\nHost: x\r\n\r\n") = true ∧
    ((handle_request_c (ReadResult.ok (strBytes "GET /health HTTP/1.1\r\nHost: x\r\n\r\n"))
        (strftimeTimestamp 124 0 1 0 0 0)).wrote =
      some (healthPrefixBytes ++ strftimeTimestamp 124 0 1 0 0 0 ++ healthSuffixBytes) ∧
    (handle_request_cpp (ReadResult.ok (strBytes "GET /health HTTP/1.1\r\nHost: x\r\n\r\n"))
        (putTimeTimestamp 124 0 1 0 0 0)).wrote =
      some (healthPrefixBytes ++ putTimeTimestamp 124 0 1 0 0 0 ++ healthSuffixBytes) ∧
    matchesTimestampPattern (strftimeTimestamp 124 0 1 0 0 0) = true ∧
    matchesTimestampPattern (putTimeTimestamp 124 0 1 0 0 0) = true) :=
  ⟨by decide,
   c3_health_response _ 124 0 1 0 0 0 (by decide) (by decide) (by decide) (by decide)
     (by decide) (by decide) (by decide)⟩

/-- C4: every received byte sequence that nowhere contains the substring
`GET /health` is answered by both handlers with exactly the default
response: status line `HTTP/1.1 200 OK`, header `Content-Type: text/plain`,
body `Hello from agentkernel sandbox!` plus newline
(`defaultResponseBytes` spells out exactly those bytes). -/
theorem c4_default_response (data ts : List Nat)
    (h : ¬ hasSubstring healthNeedle data) :
    (handle_request_c (ReadResult.ok data) ts).wrote = some defaultResponseBytes ∧
    (handle_request_cpp (ReadResult.ok data) ts).wrote = some defaultResponseBytes := by
  have hc : classifyC data = false := by
    cases hcl : classifyC data with
    | false => rfl
    | true =>
        exact absurd
          (hasSubstring_of_takeWhile healthNeedle data _ ((containsSub_iff _ _).mp hcl)) h
  rw [handle_request_c_default data ts hc, handle_request_cpp_default data ts hc]
  exact ⟨rfl, rfl⟩

/-- C4 witness at a concrete non-health request. -/
theorem c4_default_response_witness :
    ¬ hasSubstring healthNeedle (strBytes "GET / HTTP/1.1\r\n\r\n") ∧
    ((handle_request_c (ReadResult.ok (strBytes "GET / HTTP/1.1\r\n\r\n")) []).wrote =
      some defaultResponseBytes ∧
    (handle_request_cpp (ReadResult.ok (strBytes "GET / HTTP/1.1\r\n\r\n")) []).wrote =
      some defaultResponseBytes) :=
  ⟨fun hs => absurd ((containsSub_iff _ _).mpr hs) (by decide),
   c4_default_response _ []
     (fun hs => absurd ((containsSub_iff _ _).mpr hs) (by decide))⟩

/-- C5: a failed read makes both handlers report the failure and return
without writing any response; the handler still returns normally, so the
accept loop carries on with the next iteration. -/
theorem c5_read_error (ts : List Nat) :
    handle_request_c ReadResult.readError ts = ⟨none, true⟩ ∧
    handle_request_cpp ReadResult.readError ts = ⟨none, true⟩ ∧
    (loopBodyC (AcceptEvent.conn ReadResult.readError ts)).continues = true ∧
    (loopBodyCpp (AcceptEvent.conn ReadResult.readError ts)).continues = true :=
  ⟨rfl, rfl, rfl, rfl⟩

/-- C6: the `read` call consumes at most 4095 bytes of the peer's payload,
the bytes read are a prefix of the payload (truncation, no corruption), and
the NUL terminator is written at index `bytes_read ≤ 4095`, strictly inside
the 4096-byte buffer. -/
theorem c6_bounded_read (payload : List Nat) :
    (readRequest payload).length ≤ 4095 ∧
    terminatorIndex payload ≤ 4095 ∧
    terminatorIndex payload < bufferSize ∧
    (∃ rest, readRequest payload ++ rest = payload) := by
  have hlen : (readRequest payload).length ≤ 4095 := by
    simp only [readRequest, bufferSize, List.length_take]
    omega
  refine ⟨hlen, hlen, ?_, payload.drop (bufferSize - 1), List.take_append_drop _ _⟩
  simp only [terminatorIndex, bufferSize]
  omega

/-- C7: for every read outcome and every fixed timestamp value (of at most
63 NUL-free bytes, as `strftime`'s 64-byte buffer guarantees), the C and C++
handlers return byte-for-byte identical results: same classification, same
response bytes, same error reporting. -/
theorem c7_c_cpp_equivalent (r : ReadResult) (ts : List Nat)
    (hlen : ts.length ≤ 63) (hnz : ∀ b ∈ ts, b ≠ 0) :
    handle_request_c r ts = handle_request_cpp r ts := by
  cases r with
  | readError => rfl
  | ok data =>
      cases hc : classifyC data with
      | false =>
          rw [handle_request_c_default data ts hc, handle_request_cpp_default data ts hc]
      | true =>
          rw [handle_request_c_health data ts hc hlen hnz,
            handle_request_cpp_health data ts hc]

/-- C7 witness at a concrete request and timestamp. -/
theorem c7_c_cpp_equivalent_witness :
    (strBytes "2024-01-01T00:00:00Z").length ≤ 63 ∧
    (∀ b ∈ strBytes "2024-01-01T00:00:00Z", b ≠ 0) ∧
    handle_request_c (ReadResult.ok (strBytes "GET /health")) (strBytes "2024-01-01T00:00:00Z") =
      handle_request_cpp (ReadResult.ok (strBytes "GET /health"))
        (strBytes "2024-01-01T00:00:00Z") :=
  ⟨by decide, by decide,
   c7_c_cpp_equivalent (ReadResult.ok (strBytes "GET /health"))
     (strBytes "2024-01-01T00:00:00Z") (by decide) (by decide)⟩

/-- C8: the handler is deterministic in the received bytes — two runs that
read the same byte sequence produce the same response except possibly for
the timestamp bytes of a health response (same surrounding bytes) — and the
loop body touches no cross-connection state: the response of a later
connection is independent of every earlier event of the trace. -/
theorem c8_deterministic (r : ReadResult) (ts1 ts2 : List Nat) (es : List AcceptEvent)
    (hlen1 : ts1.length ≤ 63) (hnz1 : ∀ b ∈ ts1, b ≠ 0)
    (hlen2 : ts2.length ≤ 63) (hnz2 : ∀ b ∈ ts2, b ≠ 0) :
    ((handle_request_c r ts1).wrote = (handle_request_c r ts2).wrote ∨
      (∃ data, r = ReadResult.ok data ∧ classifyC data = true ∧
        (handle_request_c r ts1).wrote =
          some (healthPrefixBytes ++ ts1 ++ healthSuffixBytes) ∧
        (handle_request_c r ts2).wrote =
          some (healthPrefixBytes ++ ts2 ++ healthSuffixBytes))) ∧
    serverTraceC (es ++ [AcceptEvent.conn r ts1]) =
      serverTraceC es ++ [(handle_request_c r ts1).wrote] ∧
    serverTraceCpp (es ++ [AcceptEvent.conn r ts1]) =
      serverTraceCpp es ++ [(handle_request_cpp r ts1).wrote] := by
  refine ⟨?_, by simp [serverTraceC, loopBodyC], by simp [serverTraceCpp, loopBodyCpp]⟩
  cases r with
  | readError => exact Or.inl rfl
  | ok data =>
      cases hc : classifyC data with
      | false =>
          rw [handle_request_c_default data ts1 hc, handle_request_c_default data ts2 hc]
          exact Or.inl rfl
      | true =>
          refine Or.inr ⟨data, rfl, hc, ?_, ?_⟩
          · rw [handle_request_c_health data ts1 hc hlen1 hnz1]
          · rw [handle_request_c_health data ts2 hc hlen2 hnz2]

/-- C8 witness: a health request handled after an earlier failed accept,
with two different clock values. -/
theorem c8_deterministic_witness :
    (strBytes "2024-01-01T00:00:00Z").length ≤ 63 ∧
    (strBytes "2025-06-30T12:34:56Z").length ≤ 63 ∧
    (((handle_request_c (ReadResult.ok (strBytes "GET /health"))
          (strBytes "2024-01-01T00:00:00Z")).wrote =
        (handle_request_c (ReadResult.ok (strBytes "GET /health"))
          (strBytes "2025-06-30T12:34:56Z")).wrote ∨
      (∃ data, ReadResult.ok (strBytes "GET /health") = ReadResult.ok data ∧
        classifyC data = true ∧
        (handle_request_c (ReadResult.ok (strBytes "GET /health"))
            (strBytes "2024-01-01T00:00:00Z")).wrote =
          some (healthPrefixBytes ++ strBytes "2024-01-01T00:00:00Z" ++ healthSuffixBytes) ∧
        (handle_request_c (ReadResult.ok (strBytes "GET /health"))
            (strBytes "2025-06-30T12:34:56Z")).wrote =
          some (healthPrefixBytes ++ strBytes "2025-06-30T12:34:56Z" ++ healthSuffixBytes))) ∧
    serverTraceC ([AcceptEvent.acceptFail] ++
        [AcceptEvent.conn (ReadResult.ok (strBytes "GET /health"))
          (strBytes "2024-01-01T00:00:00Z")]) =
      serverTraceC [AcceptEvent.acceptFail] ++
        [(handle_request_c (ReadResult.ok (strBytes "GET /health"))
          (strBytes "2024-01-01T00:00:00Z")).wrote] ∧
    serverTraceCpp ([AcceptEvent.acceptFail] ++
        [AcceptEvent.conn (ReadResult.ok (strBytes "GET /health"))
          (strBytes "2024-01-01T00:00:00Z")]) =
      serverTraceCpp [AcceptEvent.acceptFail] ++
        [(handle_request_cpp (ReadResult.ok (strBytes "GET /health"))
          (strBytes "2024-01-01T00:00:00Z")).wrote]) :=
  ⟨by decide, by decide,
   c8_deterministic (ReadResult.ok (strBytes "GET /health"))
     (strBytes "2024-01-01T00:00:00Z") (strBytes "2025-06-30T12:34:56Z")
     [AcceptEvent.acceptFail] (by decide) (by decide) (by decide) (by decide)⟩

/-- C9: no branch of the accept-loop body leaves the loop — a failed accept
is reported and the loop continues, a handled connection is closed and the
loop continues — and after any first event the next connection is serviced:
the trace of a two-event run answers both events in order. -/
theorem c9_loop_continues (e : AcceptEvent) (es : List AcceptEvent)
    (r2 : ReadResult) (ts2 : List Nat) :
    (loopBodyC e).continues = true ∧
    (loopBodyCpp e).continues = true ∧
    (loopBodyC AcceptEvent.acceptFail).reportedAcceptError = true ∧
    (loopBodyC AcceptEvent.acceptFail).response = none ∧
    (loopBodyCpp AcceptEvent.acceptFail).reportedAcceptError = true ∧
    (loopBodyCpp AcceptEvent.acceptFail).response = none ∧
    serverTraceC (e :: es) = (loopBodyC e).response :: serverTraceC es ∧
    serverTraceC [e, AcceptEvent.conn r2 ts2] =
      [(loopBodyC e).response, (handle_request_c r2 ts2).wrote] ∧
    serverTraceCpp [e, AcceptEvent.conn r2 ts2] =
      [(loopBodyCpp e).response, (handle_request_cpp r2 ts2).wrote] := by
  cases e <;> simp [serverTraceC, serverTraceCpp, loopBodyC, loopBodyCpp]

/-- C10: each server exits early, with code 1 and a nonempty diagnostic,
exactly when socket creation, bind, or listen fails at startup; every early
exit carries code 1; and once the accept loop is reached no loop iteration
ever stops the loop, so nothing else makes the process exit on its own. -/
theorem c10_startup_exit (socketOk bindOk listenOk : Bool) :
    ((socketOk = true ∧ bindOk = true ∧ listenOk = true) ↔
      serverStartupC socketOk bindOk listenOk = MainResult.listening) ∧
    ((socketOk = false ∨ bindOk = false ∨ listenOk = false) ↔
      ∃ diag, diag ≠ "" ∧
        serverStartupC socketOk bindOk listenOk = MainResult.earlyExit 1 diag) ∧
    (∀ code diag, serverStartupC socketOk bindOk listenOk ≠ MainResult.earlyExit code diag ∨
      (code = 1 ∧ diag ≠ "")) ∧
    ((socketOk = true ∧ bindOk = true ∧ listenOk = true) ↔
      serverStartupCpp socketOk bindOk listenOk = MainResult.listening) ∧
    ((socketOk = false ∨ bindOk = false ∨ listenOk = false) ↔
      ∃ diag, diag ≠ "" ∧
        serverStartupCpp socketOk bindOk listenOk = MainResult.earlyExit 1 diag) ∧
    (∀ code diag, serverStartupCpp socketOk bindOk listenOk ≠ MainResult.earlyExit code diag ∨
      (code = 1 ∧ diag ≠ "")) ∧
    (∀ e, (loopBodyC e).continues = true) ∧
    (∀ e, (loopBodyCpp e).continues = true) := by
  have hloop : ∀ e, (loopBodyC e).continues = true := by
    intro e; cases e <;> rfl
  have hloop2 : ∀ e, (loopBodyCpp e).continues = true := by
    intro e; cases e <;> rfl
  have hshapeC : serverStartupC socketOk bindOk listenOk = MainResult.listening ∨
      ∃ d, d ≠ "" ∧ serverStartupC socketOk bindOk listenOk = MainResult.earlyExit 1 d := by
    cases socketOk <;> cases bindOk <;> cases listenOk <;>
      first
        | exact Or.inl rfl
        | exact Or.inr ⟨"socket", by decide, rfl⟩
        | exact Or.inr ⟨"bind", by decide, rfl⟩
        | exact Or.inr ⟨"listen", by decide, rfl⟩
  have hshapeCpp : serverStartupCpp socketOk bindOk listenOk = MainResult.listening ∨
      ∃ d, d ≠ "" ∧ serverStartupCpp socketOk bindOk listenOk = MainResult.earlyExit 1 d := by
    cases socketOk <;> cases bindOk <;> cases listenOk <;>
      first
        | exact Or.inl rfl
        | exact Or.inr ⟨"Failed to create socket", by decide, rfl⟩
        | exact Or.inr ⟨"Bind failed", by decide, rfl⟩
        | exact Or.inr ⟨"Listen failed", by decide, rfl⟩
  have hexitC : ∀ code diag,
      serverStartupC socketOk bindOk listenOk ≠ MainResult.earlyExit code diag ∨
        (code = 1 ∧ diag ≠ "") := by
    rcases hshapeC with h | ⟨d, hd, h⟩
    · intro code diag
      rw [h]
      exact Or.inl (by simp)
    · intro code diag
      rw [h]
      exact earlyExit_cases 1 d hd code diag
  have hexitCpp : ∀ code diag,
      serverStartupCpp socketOk bindOk listenOk ≠ MainResult.earlyExit code diag ∨
        (code = 1 ∧ diag ≠ "") := by
    rcases hshapeCpp with h | ⟨d, hd, h⟩
    · intro code diag
      rw [h]
      exact Or.inl (by simp)
    · intro code diag
      rw [h]
      exact earlyExit_cases 1 d hd code diag
  refine ⟨?_, ?_, hexitC, ?_, ?_, hexitCpp, hloop, hloop2⟩ <;>
    cases socketOk <;> cases bindOk <;> cases listenOk <;>
    simp [serverStartupC, serverStartupCpp]

end AgentKernel
